import Mathlib

/-!
# EnsureRoleBinding (internal/objects/rolebinding/role_binding.go)

A shallow embedding of the role-binding reconciliation of the operator:
`desiredRoleBinding`, `CurrentRoleBinding`, `createRoleBinding`,
`updateRoleBindingIfNeeded` and `EnsureRoleBinding`.

The store client (`client.Client`) is an interface: it is modelled as three
state-passing functions over an arbitrary store state, and every function of
the source that calls it returns, next to its Go result, the list of client
calls it issued (with what each call returned) and the store state left behind.
`Create` and `Update` receive a pointer: the client hands back the object as
the call left it, and the source formats its errors from that object.
-/

set_option autoImplicit false

namespace rolebinding

/-! ## Go values -/

/-- A Go `map[string]string`: an association list with at most one entry per
key. The nil map and the empty map are both `[]`. -/
abbrev StringMap := List (String × String)

/-- The lookup `m[k]` with the comma-ok flag: `none` when the key is absent. -/
def StringMap.get (m : StringMap) (k : String) : Option String :=
  match m with
  | [] => none
  | (k', v) :: rest => if k' = k then some v else StringMap.get rest k

/-- The assignment `m[k] = v`: replaces the entry of `k` or adds one. -/
def StringMap.set (m : StringMap) (k v : String) : StringMap :=
  match m with
  | [] => [(k, v)]
  | (k', v') :: rest => if k' = k then (k, v) :: rest else (k', v') :: StringMap.set rest k v

/-- The value of `len(m)`. -/
def StringMap.len (m : StringMap) : Nat := m.length

/-- A Go `error` as this package sees it: either an error handed back by the
store client, which carries whether `errors.IsNotFound` holds of it, or the
`*fmt.wrapError` that `fmt.Errorf` builds for a format with `%w`. -/
inductive GoError where
  | client (notFound : Bool) (msg : String)
  | wrapError (msg : String) (err : GoError)
  deriving DecidableEq, Repr

/-- The method `Error()`: the message of the error. -/
def GoError.Error : GoError → String
  | .client _ msg => msg
  | .wrapError msg _ => msg

/-- The method `Unwrap()`: the wrapped error, if there is one. -/
def GoError.Unwrap : GoError → Option GoError
  | .client _ _ => none
  | .wrapError _ err => some err

/-- The test `errors.Is(e, target)`: `target` is `e` or lies on the `Unwrap` chain of `e`. -/
def GoError.Is (e target : GoError) : Bool :=
  if e = target then true
  else match e with
    | .client _ _ => false
    | .wrapError _ err => GoError.Is err target

/-- The predicate `errors.IsNotFound` of k8s.io/apimachinery, which reads the
status reason of the error, here the flag of the client error, looking through
wrapping. -/
def IsNotFound : GoError → Bool
  | .client notFound _ => notFound
  | .wrapError _ err => IsNotFound err

/-- The call `fmt.Errorf("failed to <op> role binding %s/%s: %w", ns, name, err)`,
for the three operations `op` the source formats: "create", "get", "update". -/
def Errorf (op ns name : String) (err : GoError) : GoError :=
  .wrapError ("failed to " ++ op ++ " role binding " ++ ns ++ "/" ++ name ++ ": " ++ err.Error) err

/-! ## Kubernetes objects -/

/-- The struct `metav1.TypeMeta`. -/
structure TypeMeta where
  Kind : String
  APIVersion : String
  deriving DecidableEq, Repr

/-- The struct `metav1.ObjectMeta`, with the fields a store fills in
(`UID`, `ResourceVersion`, `Generation`) and the ones a user sets. -/
structure ObjectMeta where
  Name : String
  GenerateName : String
  Namespace : String
  UID : String
  ResourceVersion : String
  Generation : Int
  Labels : StringMap
  Annotations : StringMap
  deriving DecidableEq, Repr

/-- The struct `rbacv1.Subject`. -/
structure Subject where
  Kind : String
  APIGroup : String
  Name : String
  Namespace : String
  deriving DecidableEq, Repr

/-- The struct `rbacv1.RoleRef`. -/
structure RoleRef where
  APIGroup : String
  Kind : String
  Name : String
  deriving DecidableEq, Repr

/-- The struct `rbacv1.RoleBinding`: `TypeMeta` and `ObjectMeta` are embedded,
so their fields are fields of the role binding. -/
structure RoleBinding extends TypeMeta, ObjectMeta where
  Subjects : List Subject
  RoleRef : RoleRef
  deriving DecidableEq, Repr

/-- The struct `types.NamespacedName`, the key of a `Get`. -/
structure NamespacedName where
  Namespace : String
  Name : String
  deriving DecidableEq, Repr

/-- The struct `operatorv1alpha1.NamespaceSpec`, with the field the source reads. -/
structure NamespaceSpec where
  Name : String
  deriving DecidableEq, Repr

/-- The struct `operatorv1alpha1.SesameSpec`, with the field the source reads. -/
structure SesameSpec where
  Namespace : NamespaceSpec
  deriving DecidableEq, Repr

/-- The struct `operatorv1alpha1.Sesame`, the owner: its own `Name` and
`Namespace` come from the embedded `ObjectMeta`, `Spec.Namespace.Name` is the
namespace its objects are placed in. -/
structure Sesame extends TypeMeta, ObjectMeta where
  Spec : SesameSpec
  deriving DecidableEq, Repr

/-- The zero value of `metav1.TypeMeta`. -/
def TypeMeta.zero : TypeMeta := { Kind := "", APIVersion := "" }

/-- The zero value of `metav1.ObjectMeta`. -/
def ObjectMeta.zero : ObjectMeta :=
  { Name := "", GenerateName := "", Namespace := "", UID := "", ResourceVersion := "",
    Generation := 0, Labels := [], Annotations := [] }

/-- The constant `corev1.GroupName` of k8s.io/api. -/
def corev1.GroupName : String := ""

/-- The constant `rbacv1.GroupName` of k8s.io/api. -/
def rbacv1.GroupName : String := "rbac.authorization.k8s.io"

/-! ## The store client -/

/-- The three methods of `client.Client` the package calls, over a store state
`σ`. `Get` fills the object it is given or fails. `Create` and `Update` receive
a pointer to the object: they return their error (or nil), the object as the
call leaves it behind that pointer, and the store. A client may write to the
object whether the call succeeds or fails. -/
structure Client (σ : Type) where
  Get : σ → NamespacedName → Except GoError RoleBinding × σ
  Create : σ → RoleBinding → Option GoError × RoleBinding × σ
  Update : σ → RoleBinding → Option GoError × RoleBinding × σ

/-- One call the package issued to the client, with what the client returned:
for `Create` and `Update` the object passed, the error, and the object as the
call left it. -/
inductive Call where
  | Get (key : NamespacedName) (res : Except GoError RoleBinding)
  | Create (obj : RoleBinding) (err : Option GoError) (written : RoleBinding)
  | Update (obj : RoleBinding) (err : Option GoError) (written : RoleBinding)

/-- Whether the call is a `Get`. -/
def Call.isGet : Call → Bool
  | .Get _ _ => true
  | _ => false

/-- Whether the call is a `Create`. -/
def Call.isCreate : Call → Bool
  | .Create _ _ _ => true
  | _ => false

/-- Whether the call is an `Update`. -/
def Call.isUpdate : Call → Bool
  | .Update _ _ _ => true
  | _ => false

/-- Whether the call mutates the store: a `Create` or an `Update`. -/
def Call.isMutating (c : Call) : Bool := c.isCreate || c.isUpdate

/-- What a function that talks to the client leaves behind: its Go result, the
calls it issued in order, and the store state after them. -/
structure Outcome (σ : Type) (α : Type) where
  ret : α
  calls : List Call
  store : σ

/-! ## The helpers of other packages of the repository -/

/-- The declarations of other packages of the repository that the source uses:
the two label keys of api/v1alpha1, `objSesame.OwnerLabels`, `labels.Exist`
and `equality.RoleBindingConfigChanged`. They are functions of the values of
their arguments: they leave the objects they are given as they are, and the
object the comparison returns is not the desired object itself. -/
structure Deps where
  OwningSesameNameLabel : String
  OwningSesameNsLabel : String
  OwnerLabels : Sesame → StringMap
  Exist : RoleBinding → StringMap → Bool
  RoleBindingConfigChanged : RoleBinding → RoleBinding → RoleBinding × Bool

/-- Modelled from the spec: the function `objSesame.OwnerLabels` of
internal/objects/sesame, whose source is not part of the files at hand. The
ownership-label source returns the mapping of labels that must be present on
any object the owner owns: owner-name and owner-namespace, set from the owner
descriptor. -/
def objSesame.OwnerLabels (OwningSesameNameLabel OwningSesameNsLabel : String)
    (Sesame : Sesame) : StringMap :=
  (StringMap.set [] OwningSesameNameLabel Sesame.Name).set OwningSesameNsLabel Sesame.Namespace

/-- Modelled from the spec: the function `labels.Exist` of pkg/labels, whose
source is not part of the files at hand. The label-membership predicate: given
an object's labels and a required-label mapping, whether all required entries
are present with matching values. -/
def labels.Exist (obj : RoleBinding) (required : StringMap) : Bool :=
  required.all (fun kv => decide (obj.Labels.get kv.1 = some kv.2))

/-- Modelled from the spec: the function `equality.RoleBindingConfigChanged` of
internal/equality, whose source is not part of the files at hand. The
field-equality predicate returns a possibly-merged object and whether any field
of the fixed comparison set (subject list, role reference) differs; the merged
object keeps the current object's non-compared fields and takes the desired
values of the compared ones. -/
def equality.RoleBindingConfigChanged (current desired : RoleBinding) : RoleBinding × Bool :=
  if current.Subjects = desired.Subjects ∧ current.RoleRef = desired.RoleRef then
    (current, false)
  else
    ({ current with Subjects := desired.Subjects, RoleRef := desired.RoleRef }, true)

/-- Modelled from the spec: the helpers of the other packages, as the spec
describes them, for two given label keys. -/
def specDeps (OwningSesameNameLabel OwningSesameNsLabel : String) : Deps :=
  { OwningSesameNameLabel := OwningSesameNameLabel,
    OwningSesameNsLabel := OwningSesameNsLabel,
    OwnerLabels := objSesame.OwnerLabels OwningSesameNameLabel OwningSesameNsLabel,
    Exist := labels.Exist,
    RoleBindingConfigChanged := equality.RoleBindingConfigChanged }

/-! ## The source -/

/-- The function `desiredRoleBinding`: the desired role binding with the
provided name in the namespace of the owner's spec, labelled with the owner's
name and namespace, with `svcAcctRef` as subject and `roleRef` as role. -/
def desiredRoleBinding (D : Deps) (name svcAcctRef roleRef : String) (Sesame : Sesame) :
    RoleBinding :=
  let rb : RoleBinding :=
    { toTypeMeta := { TypeMeta.zero with Kind := "RoleBinding" },
      toObjectMeta := { ObjectMeta.zero with
        Namespace := Sesame.Spec.Namespace.Name,
        Name := name },
      Subjects := [],
      RoleRef := { APIGroup := "", Kind := "", Name := "" } }
  let rb : RoleBinding := { rb with
    Labels := (StringMap.set [] D.OwningSesameNameLabel Sesame.Name).set
      D.OwningSesameNsLabel Sesame.Namespace }
  let rb : RoleBinding := { rb with
    Subjects := [{ Kind := "ServiceAccount",
                   APIGroup := corev1.GroupName,
                   Name := svcAcctRef,
                   Namespace := Sesame.Spec.Namespace.Name }] }
  let rb : RoleBinding := { rb with
    RoleRef := { APIGroup := rbacv1.GroupName, Kind := "Role", Name := roleRef } }
  rb

/-- The function `CurrentRoleBinding`: one `Get` under the key `ns/name`; the
object read, or the error of the client unchanged. -/
def CurrentRoleBinding {σ : Type} (cli : Client σ) (s : σ) (ns name : String) :
    Outcome σ (Except GoError RoleBinding) :=
  let key : NamespacedName := { Namespace := ns, Name := name }
  let r := cli.Get s key
  match r.1 with
  | .error err => { ret := .error err, calls := [Call.Get key r.1], store := r.2 }
  | .ok current => { ret := .ok current, calls := [Call.Get key r.1], store := r.2 }

/-- The function `createRoleBinding`: one `Create` of `rb`; its error is wrapped
in a message formatted from `rb` as the call left it. The result is the Go
error together with `rb` after the call, which the caller, who holds the same
pointer, reads next. -/
def createRoleBinding {σ : Type} (cli : Client σ) (s : σ) (rb : RoleBinding) :
    Outcome σ (Option GoError × RoleBinding) :=
  let r := cli.Create s rb
  let written := r.2.1
  match r.1 with
  | some err =>
    { ret := (some (Errorf "create" written.Namespace written.Name err), written),
      calls := [Call.Create rb r.1 written], store := r.2.2 }
  | none => { ret := (none, written), calls := [Call.Create rb r.1 written], store := r.2.2 }

/-- The function `updateRoleBindingIfNeeded`: when `current` carries the owner
labels and the configuration changed, one `Update` of the object the comparison
returns, whose error is wrapped in a message formatted from that object as the
call left it; otherwise nothing. -/
def updateRoleBindingIfNeeded {σ : Type} (D : Deps) (cli : Client σ) (s : σ) (Sesame : Sesame)
    (current desired : RoleBinding) : Outcome σ (Option GoError) :=
  if D.Exist current (D.OwnerLabels Sesame) then
    let p := D.RoleBindingConfigChanged current desired
    let rb := p.1
    let updated := p.2
    if updated then
      let r := cli.Update s rb
      let written := r.2.1
      match r.1 with
      | some err =>
        { ret := some (Errorf "update" written.Namespace written.Name err),
          calls := [Call.Update rb r.1 written], store := r.2.2 }
      | none => { ret := none, calls := [Call.Update rb r.1 written], store := r.2.2 }
    else { ret := none, calls := [], store := s }
  else { ret := none, calls := [], store := s }

/-- The function `EnsureRoleBinding`: reads the current role binding; creates
the desired one when the read reports NotFound, fails on any other read error,
and otherwise updates the current one if needed. The error of a failed create
is formatted from the desired object as the `Create` call left it. -/
def EnsureRoleBinding {σ : Type} (D : Deps) (cli : Client σ) (s : σ)
    (name svcAct role : String) (Sesame : Sesame) : Outcome σ (Option GoError) :=
  let desired := desiredRoleBinding D name svcAct role Sesame
  let cur := CurrentRoleBinding cli s Sesame.Spec.Namespace.Name name
  match cur.ret with
  | .error err =>
    if IsNotFound err then
      let c := createRoleBinding cli cur.store desired
      let desired := c.ret.2
      match c.ret.1 with
      | some err =>
        { ret := some (Errorf "create" desired.Namespace desired.Name err),
          calls := cur.calls ++ c.calls, store := c.store }
      | none => { ret := none, calls := cur.calls ++ c.calls, store := c.store }
    else
      { ret := some (Errorf "get" desired.Namespace desired.Name err),
        calls := cur.calls, store := cur.store }
  | .ok current =>
    let u := updateRoleBindingIfNeeded D cli cur.store Sesame current desired
    match u.ret with
    | some err =>
      { ret := some (Errorf "update" desired.Namespace desired.Name err),
        calls := cur.calls ++ u.calls, store := u.store }
    | none => { ret := none, calls := cur.calls ++ u.calls, store := u.store }

/-- Two calls of `EnsureRoleBinding` in sequence with the same arguments, the
second on the store the first left behind. -/
def EnsureRoleBindingTwice {σ : Type} (D : Deps) (cli : Client σ) (s : σ)
    (name svcAct role : String) (Sesame : Sesame) :
    Outcome σ (Option GoError) × Outcome σ (Option GoError) :=
  let first := EnsureRoleBinding D cli s name svcAct role Sesame
  (first, EnsureRoleBinding D cli first.store name svcAct role Sesame)

/-! ## An in-memory store and sample values -/

/-- An in-memory store: the role bindings held, in order of creation. -/
abbrev MemStore := List RoleBinding

/-- The object the in-memory store holds under a key, if any. -/
def MemStore.find (s : MemStore) (key : NamespacedName) : Option RoleBinding :=
  List.find? (fun o => decide (o.Namespace = key.Namespace ∧ o.Name = key.Name)) s

/-- A client over the in-memory store. `Get` reports NotFound for a key
without object; `Create` refuses a key already taken; `Update` replaces the
object of the key and reports NotFound when there is none. With `getErr` set
every `Get` fails with it, with `mutErr` set every `Create` and `Update` does.
It leaves the object it is given as it is. -/
def memClient (getErr mutErr : Option GoError) : Client MemStore :=
  { Get := fun s key =>
      match getErr with
      | some e => (.error e, s)
      | none =>
        match s.find key with
        | some o => (.ok o, s)
        | none => (.error (.client true "not found"), s),
    Create := fun s obj =>
      match mutErr with
      | some e => (some e, obj, s)
      | none =>
        match s.find { Namespace := obj.Namespace, Name := obj.Name } with
        | some _ => (some (.client false "already exists"), obj, s)
        | none => (none, obj, s ++ [obj]),
    Update := fun s obj =>
      match mutErr with
      | some e => (some e, obj, s)
      | none =>
        match s.find { Namespace := obj.Namespace, Name := obj.Name } with
        | some _ =>
          (none, obj, s.map (fun o =>
            if o.Namespace = obj.Namespace ∧ o.Name = obj.Name then obj else o))
        | none => (some (.client true "not found"), obj, s) }

/-- A client bound to one namespace, after the namespaced client of
controller-runtime: a key or an object of another namespace is refused, an
empty namespace is replaced by the client's, in the key of a `Get` and in the
object handed to `Create` or `Update`, before the call goes to the inner client. -/
def namespacedClient {σ : Type} (ns : String) (inner : Client σ) : Client σ :=
  { Get := fun s key =>
      if key.Namespace ≠ "" ∧ key.Namespace ≠ ns then
        (.error (.client false "namespace does not match the namespace on the client"), s)
      else inner.Get s { key with Namespace := ns },
    Create := fun s obj =>
      if obj.Namespace ≠ ns ∧ obj.Namespace ≠ "" then
        (some (.client false "namespace does not match the namespace on the client"), obj, s)
      else if obj.Namespace = "" then inner.Create s { obj with Namespace := ns }
      else inner.Create s obj,
    Update := fun s obj =>
      if obj.Namespace ≠ ns ∧ obj.Namespace ≠ "" then
        (some (.client false "namespace does not match the namespace on the client"), obj, s)
      else if obj.Namespace = "" then inner.Update s { obj with Namespace := ns }
      else inner.Update s obj }

/-- A sample owner: the instance instA of namespace sesame-operator, whose
objects are placed in namespace ns1. -/
def sampleOwner : Sesame :=
  { toTypeMeta := { Kind := "Sesame", APIVersion := "operator.projectsesame.io/v1alpha1" },
    toObjectMeta := { ObjectMeta.zero with Name := "instA", Namespace := "sesame-operator" },
    Spec := { Namespace := { Name := "ns1" } } }

/-- A sample owner whose spec names no namespace. -/
def sampleOwnerNoNamespace : Sesame :=
  { sampleOwner with Spec := { Namespace := { Name := "" } } }

/-- The helpers with the sample label keys owner-name and owner-ns. -/
def sampleDeps : Deps := specDeps "owner-name" "owner-ns"

/-- A sample stored role binding ns1/rb-a with subject svc-old, role role-y,
resource version 7 and the given labels. -/
def sampleStored (lbls : StringMap) : RoleBinding :=
  { toTypeMeta := { Kind := "RoleBinding", APIVersion := "rbac.authorization.k8s.io/v1" },
    toObjectMeta := { ObjectMeta.zero with
      Name := "rb-a", Namespace := "ns1", UID := "u-1", ResourceVersion := "7", Labels := lbls },
    Subjects := [{ Kind := "ServiceAccount", APIGroup := "", Name := "svc-old", Namespace := "ns1" }],
    RoleRef := { APIGroup := "rbac.authorization.k8s.io", Kind := "Role", Name := "role-y" } }

/-- The labels of an object owned by the sample owner, next to a foreign one. -/
def sampleOwnedLabels : StringMap :=
  [("app", "sesame"), ("owner-name", "instA"), ("owner-ns", "sesame-operator")]

/-- A permission-denied error of the store, which is not NotFound. -/
def forbidden : GoError := .client false "forbidden"

/-! ## Properties -/

/-! ### The paths of `EnsureRoleBinding` -/

/-- The desired role binding lies in the namespace of the owner's spec. -/
theorem desiredRoleBinding_Namespace (D : Deps) (name svcAct role : String) (Sesame : Sesame) :
    (desiredRoleBinding D name svcAct role Sesame).Namespace = Sesame.Spec.Namespace.Name := rfl

/-- The desired role binding has the name asked for. -/
theorem desiredRoleBinding_Name (D : Deps) (name svcAct role : String) (Sesame : Sesame) :
    (desiredRoleBinding D name svcAct role Sesame).Name = name := rfl

/-- Path of a failed read that is not NotFound. -/
theorem Ensure_path_read_error {σ : Type} (D : Deps) (cli : Client σ) (s : σ)
    (name svcAct role : String) (Sesame : Sesame) (err : GoError)
    (hget : (cli.Get s { Namespace := Sesame.Spec.Namespace.Name, Name := name }).1 = .error err)
    (hnf : IsNotFound err = false) :
    EnsureRoleBinding D cli s name svcAct role Sesame =
      { ret := some (Errorf "get" Sesame.Spec.Namespace.Name name err),
        calls := [Call.Get { Namespace := Sesame.Spec.Namespace.Name, Name := name } (.error err)],
        store := (cli.Get s { Namespace := Sesame.Spec.Namespace.Name, Name := name }).2 } := by
  simp [EnsureRoleBinding, CurrentRoleBinding, hget, hnf, desiredRoleBinding]

/-- Path of a NotFound read followed by a successful create. -/
theorem Ensure_path_create_ok {σ : Type} (D : Deps) (cli : Client σ) (s : σ)
    (name svcAct role : String) (Sesame : Sesame) (err : GoError)
    (hget : (cli.Get s { Namespace := Sesame.Spec.Namespace.Name, Name := name }).1 = .error err)
    (hnf : IsNotFound err = true)
    (hcr : (cli.Create (cli.Get s { Namespace := Sesame.Spec.Namespace.Name, Name := name }).2
        (desiredRoleBinding D name svcAct role Sesame)).1 = none) :
    EnsureRoleBinding D cli s name svcAct role Sesame =
      { ret := none,
        calls := [Call.Get { Namespace := Sesame.Spec.Namespace.Name, Name := name } (.error err),
                  Call.Create (desiredRoleBinding D name svcAct role Sesame) none
                    (cli.Create
                      (cli.Get s { Namespace := Sesame.Spec.Namespace.Name, Name := name }).2
                      (desiredRoleBinding D name svcAct role Sesame)).2.1],
        store := (cli.Create
          (cli.Get s { Namespace := Sesame.Spec.Namespace.Name, Name := name }).2
          (desiredRoleBinding D name svcAct role Sesame)).2.2 } := by
  simp [EnsureRoleBinding, CurrentRoleBinding, createRoleBinding, hget, hnf, hcr]

/-- Path of a NotFound read followed by a failed create. -/
theorem Ensure_path_create_error {σ : Type} (D : Deps) (cli : Client σ) (s : σ)
    (name svcAct role : String) (Sesame : Sesame) (err e : GoError)
    (hget : (cli.Get s { Namespace := Sesame.Spec.Namespace.Name, Name := name }).1 = .error err)
    (hnf : IsNotFound err = true)
    (hcr : (cli.Create (cli.Get s { Namespace := Sesame.Spec.Namespace.Name, Name := name }).2
        (desiredRoleBinding D name svcAct role Sesame)).1 = some e) :
    EnsureRoleBinding D cli s name svcAct role Sesame =
      { ret := some (Errorf "create"
          (cli.Create (cli.Get s { Namespace := Sesame.Spec.Namespace.Name, Name := name }).2
            (desiredRoleBinding D name svcAct role Sesame)).2.1.Namespace
          (cli.Create (cli.Get s { Namespace := Sesame.Spec.Namespace.Name, Name := name }).2
            (desiredRoleBinding D name svcAct role Sesame)).2.1.Name
          (Errorf "create"
            (cli.Create (cli.Get s { Namespace := Sesame.Spec.Namespace.Name, Name := name }).2
              (desiredRoleBinding D name svcAct role Sesame)).2.1.Namespace
            (cli.Create (cli.Get s { Namespace := Sesame.Spec.Namespace.Name, Name := name }).2
              (desiredRoleBinding D name svcAct role Sesame)).2.1.Name e)),
        calls := [Call.Get { Namespace := Sesame.Spec.Namespace.Name, Name := name } (.error err),
                  Call.Create (desiredRoleBinding D name svcAct role Sesame) (some e)
                    (cli.Create
                      (cli.Get s { Namespace := Sesame.Spec.Namespace.Name, Name := name }).2
                      (desiredRoleBinding D name svcAct role Sesame)).2.1],
        store := (cli.Create
          (cli.Get s { Namespace := Sesame.Spec.Namespace.Name, Name := name }).2
          (desiredRoleBinding D name svcAct role Sesame)).2.2 } := by
  simp [EnsureRoleBinding, CurrentRoleBinding, createRoleBinding, hget, hnf, hcr,
    desiredRoleBinding_Namespace, desiredRoleBinding_Name]

/-- Path of a successful read of an object without the owner labels. -/
theorem Ensure_path_not_owned {σ : Type} (D : Deps) (cli : Client σ) (s : σ)
    (name svcAct role : String) (Sesame : Sesame) (current : RoleBinding)
    (hget : (cli.Get s { Namespace := Sesame.Spec.Namespace.Name, Name := name }).1 = .ok current)
    (hown : D.Exist current (D.OwnerLabels Sesame) = false) :
    EnsureRoleBinding D cli s name svcAct role Sesame =
      { ret := none,
        calls := [Call.Get { Namespace := Sesame.Spec.Namespace.Name, Name := name } (.ok current)],
        store := (cli.Get s { Namespace := Sesame.Spec.Namespace.Name, Name := name }).2 } := by
  simp [EnsureRoleBinding, CurrentRoleBinding, updateRoleBindingIfNeeded, hget, hown]

/-- Path of a successful read of an owned object whose configuration did not change. -/
theorem Ensure_path_unchanged {σ : Type} (D : Deps) (cli : Client σ) (s : σ)
    (name svcAct role : String) (Sesame : Sesame) (current : RoleBinding)
    (hget : (cli.Get s { Namespace := Sesame.Spec.Namespace.Name, Name := name }).1 = .ok current)
    (hown : D.Exist current (D.OwnerLabels Sesame) = true)
    (hch : (D.RoleBindingConfigChanged current
        (desiredRoleBinding D name svcAct role Sesame)).2 = false) :
    EnsureRoleBinding D cli s name svcAct role Sesame =
      { ret := none,
        calls := [Call.Get { Namespace := Sesame.Spec.Namespace.Name, Name := name } (.ok current)],
        store := (cli.Get s { Namespace := Sesame.Spec.Namespace.Name, Name := name }).2 } := by
  simp [EnsureRoleBinding, CurrentRoleBinding, updateRoleBindingIfNeeded, hget, hown, hch]

/-- Path of a successful read of an owned, changed object followed by a successful update. -/
theorem Ensure_path_update_ok {σ : Type} (D : Deps) (cli : Client σ) (s : σ)
    (name svcAct role : String) (Sesame : Sesame) (current : RoleBinding)
    (hget : (cli.Get s { Namespace := Sesame.Spec.Namespace.Name, Name := name }).1 = .ok current)
    (hown : D.Exist current (D.OwnerLabels Sesame) = true)
    (hch : (D.RoleBindingConfigChanged current
        (desiredRoleBinding D name svcAct role Sesame)).2 = true)
    (hup : (cli.Update (cli.Get s { Namespace := Sesame.Spec.Namespace.Name, Name := name }).2
        (D.RoleBindingConfigChanged current
          (desiredRoleBinding D name svcAct role Sesame)).1).1 = none) :
    EnsureRoleBinding D cli s name svcAct role Sesame =
      { ret := none,
        calls := [Call.Get { Namespace := Sesame.Spec.Namespace.Name, Name := name } (.ok current),
                  Call.Update (D.RoleBindingConfigChanged current
                    (desiredRoleBinding D name svcAct role Sesame)).1 none
                    (cli.Update
                      (cli.Get s { Namespace := Sesame.Spec.Namespace.Name, Name := name }).2
                      (D.RoleBindingConfigChanged current
                        (desiredRoleBinding D name svcAct role Sesame)).1).2.1],
        store := (cli.Update
          (cli.Get s { Namespace := Sesame.Spec.Namespace.Name, Name := name }).2
          (D.RoleBindingConfigChanged current
            (desiredRoleBinding D name svcAct role Sesame)).1).2.2 } := by
  simp [EnsureRoleBinding, CurrentRoleBinding, updateRoleBindingIfNeeded, hget, hown, hch, hup]

/-- Path of a successful read of an owned, changed object followed by a failed update. -/
theorem Ensure_path_update_error {σ : Type} (D : Deps) (cli : Client σ) (s : σ)
    (name svcAct role : String) (Sesame : Sesame) (current : RoleBinding) (e : GoError)
    (hget : (cli.Get s { Namespace := Sesame.Spec.Namespace.Name, Name := name }).1 = .ok current)
    (hown : D.Exist current (D.OwnerLabels Sesame) = true)
    (hch : (D.RoleBindingConfigChanged current
        (desiredRoleBinding D name svcAct role Sesame)).2 = true)
    (hup : (cli.Update (cli.Get s { Namespace := Sesame.Spec.Namespace.Name, Name := name }).2
        (D.RoleBindingConfigChanged current
          (desiredRoleBinding D name svcAct role Sesame)).1).1 = some e) :
    EnsureRoleBinding D cli s name svcAct role Sesame =
      { ret := some (Errorf "update" Sesame.Spec.Namespace.Name name
          (Errorf "update"
            (cli.Update
              (cli.Get s { Namespace := Sesame.Spec.Namespace.Name, Name := name }).2
              (D.RoleBindingConfigChanged current
                (desiredRoleBinding D name svcAct role Sesame)).1).2.1.Namespace
            (cli.Update
              (cli.Get s { Namespace := Sesame.Spec.Namespace.Name, Name := name }).2
              (D.RoleBindingConfigChanged current
                (desiredRoleBinding D name svcAct role Sesame)).1).2.1.Name e)),
        calls := [Call.Get { Namespace := Sesame.Spec.Namespace.Name, Name := name } (.ok current),
                  Call.Update (D.RoleBindingConfigChanged current
                    (desiredRoleBinding D name svcAct role Sesame)).1 (some e)
                    (cli.Update
                      (cli.Get s { Namespace := Sesame.Spec.Namespace.Name, Name := name }).2
                      (D.RoleBindingConfigChanged current
                        (desiredRoleBinding D name svcAct role Sesame)).1).2.1],
        store := (cli.Update
          (cli.Get s { Namespace := Sesame.Spec.Namespace.Name, Name := name }).2
          (D.RoleBindingConfigChanged current
            (desiredRoleBinding D name svcAct role Sesame)).1).2.2 } := by
  simp [EnsureRoleBinding, CurrentRoleBinding, updateRoleBindingIfNeeded, hget, hown, hch, hup,
    desiredRoleBinding_Namespace, desiredRoleBinding_Name]

/-- C1: when the read of the role binding fails with an error that is not
NotFound, `EnsureRoleBinding` returns a non-nil error, the error of the read
wrapped, and its only client call is that read: no `Create`, no `Update`. -/
theorem EnsureRoleBinding_read_error {σ : Type} (D : Deps) (cli : Client σ) (s : σ)
    (name svcAct role : String) (Sesame : Sesame) (err : GoError)
    (hget : (cli.Get s { Namespace := Sesame.Spec.Namespace.Name, Name := name }).1 = .error err)
    (hnf : IsNotFound err = false) :
    (EnsureRoleBinding D cli s name svcAct role Sesame).ret
        = some (Errorf "get" Sesame.Spec.Namespace.Name name err) ∧
    (EnsureRoleBinding D cli s name svcAct role Sesame).ret ≠ none ∧
    (EnsureRoleBinding D cli s name svcAct role Sesame).calls
        = [Call.Get { Namespace := Sesame.Spec.Namespace.Name, Name := name } (.error err)] ∧
    (∀ c ∈ (EnsureRoleBinding D cli s name svcAct role Sesame).calls,
        c.isCreate = false ∧ c.isUpdate = false) := by
  have hcalls : (EnsureRoleBinding D cli s name svcAct role Sesame).calls
      = [Call.Get { Namespace := Sesame.Spec.Namespace.Name, Name := name } (.error err)] := by
    simp [EnsureRoleBinding, CurrentRoleBinding, hget, hnf]
  have hret : (EnsureRoleBinding D cli s name svcAct role Sesame).ret
      = some (Errorf "get" Sesame.Spec.Namespace.Name name err) := by
    simp [EnsureRoleBinding, CurrentRoleBinding, hget, hnf, desiredRoleBinding]
  refine ⟨hret, ?_, hcalls, ?_⟩
  · rw [hret]; simp
  · intro c hc
    rw [hcalls] at hc
    simp at hc
    subst hc
    exact ⟨rfl, rfl⟩

/-- Witness of C1: the in-memory client whose reads are forbidden. -/
theorem EnsureRoleBinding_read_error_witness :
    (EnsureRoleBinding sampleDeps (memClient (some forbidden) none) [] "rb-a" "svc-x" "role-y"
        sampleOwner).ret = some (Errorf "get" "ns1" "rb-a" forbidden) ∧
    (EnsureRoleBinding sampleDeps (memClient (some forbidden) none) [] "rb-a" "svc-x" "role-y"
        sampleOwner).calls
      = [Call.Get { Namespace := "ns1", Name := "rb-a" } (.error forbidden)] :=
  have h := EnsureRoleBinding_read_error sampleDeps (memClient (some forbidden) none) [] "rb-a"
    "svc-x" "role-y" sampleOwner forbidden rfl rfl
  ⟨h.1, h.2.2.1⟩

/-- C2: when the object read does not carry the owner labels, that is
`labels.Exist(current, OwnerLabels(owner))` is false, `EnsureRoleBinding` returns
nil and its only client call is the read, whatever the subjects and the role
reference of the object read are. -/
theorem EnsureRoleBinding_not_owned {σ : Type} (D : Deps) (cli : Client σ) (s : σ)
    (name svcAct role : String) (Sesame : Sesame) (current : RoleBinding)
    (hget : (cli.Get s { Namespace := Sesame.Spec.Namespace.Name, Name := name }).1 = .ok current)
    (hown : D.Exist current (D.OwnerLabels Sesame) = false) :
    (EnsureRoleBinding D cli s name svcAct role Sesame).ret = none ∧
    (EnsureRoleBinding D cli s name svcAct role Sesame).calls
        = [Call.Get { Namespace := Sesame.Spec.Namespace.Name, Name := name } (.ok current)] ∧
    (∀ c ∈ (EnsureRoleBinding D cli s name svcAct role Sesame).calls,
        c.isCreate = false ∧ c.isUpdate = false) ∧
    (EnsureRoleBinding D cli s name svcAct role Sesame).store
        = (cli.Get s { Namespace := Sesame.Spec.Namespace.Name, Name := name }).2 := by
  have hcalls : (EnsureRoleBinding D cli s name svcAct role Sesame).calls
      = [Call.Get { Namespace := Sesame.Spec.Namespace.Name, Name := name } (.ok current)] := by
    simp [EnsureRoleBinding, CurrentRoleBinding, updateRoleBindingIfNeeded, hget, hown]
  refine ⟨?_, hcalls, ?_, ?_⟩
  · simp [EnsureRoleBinding, CurrentRoleBinding, updateRoleBindingIfNeeded, hget, hown]
  · intro c hc
    rw [hcalls] at hc
    simp at hc
    subst hc
    exact ⟨rfl, rfl⟩
  · simp [EnsureRoleBinding, CurrentRoleBinding, updateRoleBindingIfNeeded, hget, hown]

/-- Witness of C2: the store holds ns1/rb-a without labels and with subject
svc-old, which differs from the desired svc-x. -/
theorem EnsureRoleBinding_not_owned_witness :
    (EnsureRoleBinding sampleDeps (memClient none none) [sampleStored []] "rb-a" "svc-x" "role-y"
        sampleOwner).ret = none ∧
    (EnsureRoleBinding sampleDeps (memClient none none) [sampleStored []] "rb-a" "svc-x" "role-y"
        sampleOwner).calls
        = [Call.Get { Namespace := "ns1", Name := "rb-a" } (.ok (sampleStored []))] ∧
    (EnsureRoleBinding sampleDeps (memClient none none) [sampleStored []] "rb-a" "svc-x" "role-y"
        sampleOwner).store = [sampleStored []] :=
  have h := EnsureRoleBinding_not_owned sampleDeps (memClient none none) [sampleStored []] "rb-a"
    "svc-x" "role-y" sampleOwner (sampleStored []) rfl rfl
  ⟨h.1, h.2.1, h.2.2.2⟩

/-- C3: when the read reports NotFound, `EnsureRoleBinding` issues, after the
read, exactly one `Create`, of the object `desiredRoleBinding` builds, and no
`Update`; it returns nil when that `Create` succeeds. -/
theorem EnsureRoleBinding_creates {σ : Type} (D : Deps) (cli : Client σ) (s : σ)
    (name svcAct role : String) (Sesame : Sesame) (err : GoError)
    (hget : (cli.Get s { Namespace := Sesame.Spec.Namespace.Name, Name := name }).1 = .error err)
    (hnf : IsNotFound err = true) :
    (EnsureRoleBinding D cli s name svcAct role Sesame).calls
        = [Call.Get { Namespace := Sesame.Spec.Namespace.Name, Name := name } (.error err),
           Call.Create (desiredRoleBinding D name svcAct role Sesame)
             (cli.Create (cli.Get s { Namespace := Sesame.Spec.Namespace.Name, Name := name }).2
               (desiredRoleBinding D name svcAct role Sesame)).1
             (cli.Create (cli.Get s { Namespace := Sesame.Spec.Namespace.Name, Name := name }).2
               (desiredRoleBinding D name svcAct role Sesame)).2.1] ∧
    ((EnsureRoleBinding D cli s name svcAct role Sesame).calls.filter Call.isCreate).length = 1 ∧
    ((EnsureRoleBinding D cli s name svcAct role Sesame).calls.filter Call.isUpdate).length = 0 ∧
    ((cli.Create (cli.Get s { Namespace := Sesame.Spec.Namespace.Name, Name := name }).2
        (desiredRoleBinding D name svcAct role Sesame)).1 = none →
      (EnsureRoleBinding D cli s name svcAct role Sesame).ret = none) := by
  have hcalls : (EnsureRoleBinding D cli s name svcAct role Sesame).calls
        = [Call.Get { Namespace := Sesame.Spec.Namespace.Name, Name := name } (.error err),
           Call.Create (desiredRoleBinding D name svcAct role Sesame)
             (cli.Create (cli.Get s { Namespace := Sesame.Spec.Namespace.Name, Name := name }).2
               (desiredRoleBinding D name svcAct role Sesame)).1
             (cli.Create (cli.Get s { Namespace := Sesame.Spec.Namespace.Name, Name := name }).2
               (desiredRoleBinding D name svcAct role Sesame)).2.1] := by
    simp only [EnsureRoleBinding, CurrentRoleBinding, createRoleBinding, hget, hnf]
    cases (cli.Create (cli.Get s { Namespace := Sesame.Spec.Namespace.Name, Name := name }).2
        (desiredRoleBinding D name svcAct role Sesame)).1 <;> simp
  refine ⟨hcalls, ?_, ?_, ?_⟩
  · rw [hcalls]; simp [Call.isCreate]
  · rw [hcalls]; simp [Call.isUpdate]
  · intro hc
    simp [EnsureRoleBinding, CurrentRoleBinding, createRoleBinding, hget, hnf, hc]

/-- Witness of C3: the empty in-memory store, where the create succeeds. -/
theorem EnsureRoleBinding_creates_witness :
    (EnsureRoleBinding sampleDeps (memClient none none) [] "rb-a" "svc-x" "role-y"
        sampleOwner).calls
        = [Call.Get { Namespace := "ns1", Name := "rb-a" } (.error (.client true "not found")),
           Call.Create (desiredRoleBinding sampleDeps "rb-a" "svc-x" "role-y" sampleOwner) none
             (desiredRoleBinding sampleDeps "rb-a" "svc-x" "role-y" sampleOwner)] ∧
    (EnsureRoleBinding sampleDeps (memClient none none) [] "rb-a" "svc-x" "role-y"
        sampleOwner).ret = none :=
  have h := EnsureRoleBinding_creates sampleDeps (memClient none none) [] "rb-a" "svc-x" "role-y"
    sampleOwner (.client true "not found") rfl rfl
  ⟨h.1, h.2.2.2 rfl⟩

/-- C8: one invocation of `EnsureRoleBinding` issues a `Get` first, under the
key of the role binding, exactly one `Get` in all, and after it at most one
mutating call: never a `Create` and an `Update`, never two of either. -/
theorem EnsureRoleBinding_one_read_one_write {σ : Type} (D : Deps) (cli : Client σ) (s : σ)
    (name svcAct role : String) (Sesame : Sesame) :
    (EnsureRoleBinding D cli s name svcAct role Sesame).calls.head?
        = some (Call.Get { Namespace := Sesame.Spec.Namespace.Name, Name := name }
            (cli.Get s { Namespace := Sesame.Spec.Namespace.Name, Name := name }).1) ∧
    ((EnsureRoleBinding D cli s name svcAct role Sesame).calls.filter Call.isGet).length = 1 ∧
    ((EnsureRoleBinding D cli s name svcAct role Sesame).calls.filter Call.isCreate).length
      + ((EnsureRoleBinding D cli s name svcAct role Sesame).calls.filter Call.isUpdate).length
      ≤ 1 ∧
    (EnsureRoleBinding D cli s name svcAct role Sesame).calls.length ≤ 2 := by
  cases hget : (cli.Get s { Namespace := Sesame.Spec.Namespace.Name, Name := name }).1 with
  | error err =>
    cases hnf : IsNotFound err with
    | false =>
      rw [Ensure_path_read_error D cli s name svcAct role Sesame err hget hnf]
      simp [Call.isGet, Call.isCreate, Call.isUpdate]
    | true =>
      cases hcr : (cli.Create
          (cli.Get s { Namespace := Sesame.Spec.Namespace.Name, Name := name }).2
          (desiredRoleBinding D name svcAct role Sesame)).1 with
      | none =>
        rw [Ensure_path_create_ok D cli s name svcAct role Sesame err hget hnf hcr]
        simp [Call.isGet, Call.isCreate, Call.isUpdate]
      | some e =>
        rw [Ensure_path_create_error D cli s name svcAct role Sesame err e hget hnf hcr]
        simp [Call.isGet, Call.isCreate, Call.isUpdate]
  | ok current =>
    cases hown : D.Exist current (D.OwnerLabels Sesame) with
    | false =>
      rw [Ensure_path_not_owned D cli s name svcAct role Sesame current hget hown]
      simp [Call.isGet, Call.isCreate, Call.isUpdate]
    | true =>
      cases hch : (D.RoleBindingConfigChanged current
          (desiredRoleBinding D name svcAct role Sesame)).2 with
      | false =>
        rw [Ensure_path_unchanged D cli s name svcAct role Sesame current hget hown hch]
        simp [Call.isGet, Call.isCreate, Call.isUpdate]
      | true =>
        cases hup : (cli.Update
            (cli.Get s { Namespace := Sesame.Spec.Namespace.Name, Name := name }).2
            (D.RoleBindingConfigChanged current
              (desiredRoleBinding D name svcAct role Sesame)).1).1 with
        | none =>
          rw [Ensure_path_update_ok D cli s name svcAct role Sesame current hget hown hch hup]
          simp [Call.isGet, Call.isCreate, Call.isUpdate]
        | some e =>
          rw [Ensure_path_update_error D cli s name svcAct role Sesame current e hget hown hch
            hup]
          simp [Call.isGet, Call.isCreate, Call.isUpdate]

/-- C9: `desiredRoleBinding` returns an object with the given name in the
namespace of the owner's spec, whose labels are exactly the two ownership
labels (the name key bound to the owner's name, the namespace key to the
owner's namespace, nothing under any other key), whose subject list is the one
ServiceAccount `svcAct` of the namespace of the owner's spec, and whose role
reference is the Role `role`. The two label keys are distinct constants. -/
theorem desiredRoleBinding_fields (D : Deps) (name svcAct role : String) (Sesame : Sesame)
    (hk : D.OwningSesameNameLabel ≠ D.OwningSesameNsLabel) :
    (desiredRoleBinding D name svcAct role Sesame).Name = name ∧
    (desiredRoleBinding D name svcAct role Sesame).Namespace = Sesame.Spec.Namespace.Name ∧
    (desiredRoleBinding D name svcAct role Sesame).Labels.get D.OwningSesameNameLabel
      = some Sesame.Name ∧
    (desiredRoleBinding D name svcAct role Sesame).Labels.get D.OwningSesameNsLabel
      = some Sesame.Namespace ∧
    (∀ k : String, k ≠ D.OwningSesameNameLabel → k ≠ D.OwningSesameNsLabel →
      (desiredRoleBinding D name svcAct role Sesame).Labels.get k = none) ∧
    (desiredRoleBinding D name svcAct role Sesame).Labels.len = 2 ∧
    (desiredRoleBinding D name svcAct role Sesame).Subjects
      = [{ Kind := "ServiceAccount", APIGroup := corev1.GroupName, Name := svcAct,
           Namespace := Sesame.Spec.Namespace.Name }] ∧
    (desiredRoleBinding D name svcAct role Sesame).RoleRef
      = { APIGroup := rbacv1.GroupName, Kind := "Role", Name := role } := by
  have hl : (desiredRoleBinding D name svcAct role Sesame).Labels
      = [(D.OwningSesameNameLabel, Sesame.Name), (D.OwningSesameNsLabel, Sesame.Namespace)] := by
    simp [desiredRoleBinding, StringMap.set, hk]
  refine ⟨rfl, rfl, ?_, ?_, ?_, ?_, rfl, rfl⟩
  · rw [hl]; simp [StringMap.get]
  · rw [hl]; simp [StringMap.get, hk]
  · intro k h1 h2
    rw [hl]
    simp [StringMap.get, Ne.symm h1, Ne.symm h2]
  · rw [hl]; simp [StringMap.len]

/-- Witness of C9: the sample owner and the sample label keys. -/
theorem desiredRoleBinding_fields_witness :
    (desiredRoleBinding sampleDeps "rb-a" "svc-x" "role-y" sampleOwner).Name = "rb-a" ∧
    (desiredRoleBinding sampleDeps "rb-a" "svc-x" "role-y" sampleOwner).Namespace = "ns1" ∧
    (desiredRoleBinding sampleDeps "rb-a" "svc-x" "role-y" sampleOwner).Labels.get "owner-name"
      = some "instA" ∧
    (desiredRoleBinding sampleDeps "rb-a" "svc-x" "role-y" sampleOwner).Labels.get "owner-ns"
      = some "sesame-operator" ∧
    (desiredRoleBinding sampleDeps "rb-a" "svc-x" "role-y" sampleOwner).Labels.len = 2 ∧
    (desiredRoleBinding sampleDeps "rb-a" "svc-x" "role-y" sampleOwner).Subjects
      = [{ Kind := "ServiceAccount", APIGroup := "", Name := "svc-x", Namespace := "ns1" }] ∧
    (desiredRoleBinding sampleDeps "rb-a" "svc-x" "role-y" sampleOwner).RoleRef
      = { APIGroup := "rbac.authorization.k8s.io", Kind := "Role", Name := "role-y" } :=
  have h := desiredRoleBinding_fields sampleDeps "rb-a" "svc-x" "role-y" sampleOwner (by decide)
  ⟨h.1, h.2.1, h.2.2.1, h.2.2.2.1, h.2.2.2.2.2.1, h.2.2.2.2.2.2.1, h.2.2.2.2.2.2.2⟩

/-- Every error is itself in the sense of `errors.Is`. -/
theorem GoError.Is_self (e : GoError) : GoError.Is e e = true := by
  unfold GoError.Is
  simp

/-- What a wrapped error is, the wrapping error is too. -/
theorem GoError.Is_wrapError (msg : String) (err target : GoError)
    (h : GoError.Is err target = true) : GoError.Is (.wrapError msg err) target = true := by
  rw [GoError.Is]
  split
  · rfl
  · exact h

/-- The error `Errorf` builds twice around `e` wraps `e`. -/
theorem Errorf_Errorf_Is (op a b c d : String) (e : GoError) :
    GoError.Is (Errorf op a b (Errorf op c d e)) e = true :=
  GoError.Is_wrapError _ _ _ (GoError.Is_wrapError _ _ _ (GoError.Is_self e))

/-- The merged object of the comparison: the current object with the subjects
and the role reference of the desired one. -/
theorem RoleBindingConfigChanged_changed (current desired : RoleBinding)
    (hdiff : current.Subjects ≠ desired.Subjects ∨ current.RoleRef ≠ desired.RoleRef) :
    equality.RoleBindingConfigChanged current desired
      = ({ current with Subjects := desired.Subjects, RoleRef := desired.RoleRef }, true) := by
  unfold equality.RoleBindingConfigChanged
  rw [if_neg]
  intro h
  rcases hdiff with hd | hd
  · exact hd h.1
  · exact hd h.2

/-- The comparison reports no change when subjects and role reference agree. -/
theorem RoleBindingConfigChanged_same (current desired : RoleBinding)
    (hs : current.Subjects = desired.Subjects) (hr : current.RoleRef = desired.RoleRef) :
    equality.RoleBindingConfigChanged current desired = (current, false) := by
  unfold equality.RoleBindingConfigChanged
  rw [if_pos ⟨hs, hr⟩]

/-- An object that carries the labels `desiredRoleBinding` writes satisfies the
ownership predicate of the same owner. -/
theorem Exist_of_desired_labels (k1 k2 name svcAct role : String) (Sesame : Sesame)
    (c : RoleBinding)
    (hl : c.Labels = (desiredRoleBinding (specDeps k1 k2) name svcAct role Sesame).Labels) :
    labels.Exist c (objSesame.OwnerLabels k1 k2 Sesame) = true := by
  have hd : (desiredRoleBinding (specDeps k1 k2) name svcAct role Sesame).Labels
      = (StringMap.set [] k1 Sesame.Name).set k2 Sesame.Namespace := rfl
  rw [hd] at hl
  unfold labels.Exist objSesame.OwnerLabels
  rw [hl]
  by_cases h : k1 = k2
  · simp [StringMap.set, StringMap.get, h]
  · simp [StringMap.set, StringMap.get, h]

/-- C4: with the helpers as the spec describes them, when the object read is
owned and differs from the desired one in the subject list or the role
reference, `EnsureRoleBinding` issues after the read exactly one `Update` and no
`Create`; the object updated has the desired subjects and role reference and
keeps the resource version and the other metadata of the object read. -/
theorem EnsureRoleBinding_updates {σ : Type} (k1 k2 : String) (cli : Client σ) (s : σ)
    (name svcAct role : String) (Sesame : Sesame) (C : RoleBinding)
    (hget : (cli.Get s { Namespace := Sesame.Spec.Namespace.Name, Name := name }).1 = .ok C)
    (hown : labels.Exist C (objSesame.OwnerLabels k1 k2 Sesame) = true)
    (hdiff : C.Subjects ≠ (desiredRoleBinding (specDeps k1 k2) name svcAct role Sesame).Subjects ∨
      C.RoleRef ≠ (desiredRoleBinding (specDeps k1 k2) name svcAct role Sesame).RoleRef) :
    ∃ rb : RoleBinding,
      (EnsureRoleBinding (specDeps k1 k2) cli s name svcAct role Sesame).calls
        = [Call.Get { Namespace := Sesame.Spec.Namespace.Name, Name := name } (.ok C),
           Call.Update rb
             (cli.Update
               (cli.Get s { Namespace := Sesame.Spec.Namespace.Name, Name := name }).2 rb).1
             (cli.Update
               (cli.Get s { Namespace := Sesame.Spec.Namespace.Name, Name := name }).2 rb).2.1] ∧
      ((EnsureRoleBinding (specDeps k1 k2) cli s name svcAct role Sesame).calls.filter
        Call.isUpdate).length = 1 ∧
      ((EnsureRoleBinding (specDeps k1 k2) cli s name svcAct role Sesame).calls.filter
        Call.isCreate).length = 0 ∧
      rb.Subjects = (desiredRoleBinding (specDeps k1 k2) name svcAct role Sesame).Subjects ∧
      rb.RoleRef = (desiredRoleBinding (specDeps k1 k2) name svcAct role Sesame).RoleRef ∧
      rb.ResourceVersion = C.ResourceVersion ∧
      rb.toObjectMeta = C.toObjectMeta ∧
      rb.toTypeMeta = C.toTypeMeta := by
  have hch := RoleBindingConfigChanged_changed C
    (desiredRoleBinding (specDeps k1 k2) name svcAct role Sesame) hdiff
  have hch2 : ((specDeps k1 k2).RoleBindingConfigChanged C
      (desiredRoleBinding (specDeps k1 k2) name svcAct role Sesame)).2 = true := by
    show (equality.RoleBindingConfigChanged C _).2 = true
    rw [hch]
  have hch1 : ((specDeps k1 k2).RoleBindingConfigChanged C
      (desiredRoleBinding (specDeps k1 k2) name svcAct role Sesame)).1
      = { C with
          Subjects := (desiredRoleBinding (specDeps k1 k2) name svcAct role Sesame).Subjects,
          RoleRef := (desiredRoleBinding (specDeps k1 k2) name svcAct role Sesame).RoleRef } := by
    show (equality.RoleBindingConfigChanged C _).1 = _
    rw [hch]
  refine ⟨{ C with
      Subjects := (desiredRoleBinding (specDeps k1 k2) name svcAct role Sesame).Subjects,
      RoleRef := (desiredRoleBinding (specDeps k1 k2) name svcAct role Sesame).RoleRef }, ?_⟩
  rw [← hch1]
  cases hup : (cli.Update
      (cli.Get s { Namespace := Sesame.Spec.Namespace.Name, Name := name }).2
      ((specDeps k1 k2).RoleBindingConfigChanged C
        (desiredRoleBinding (specDeps k1 k2) name svcAct role Sesame)).1).1 with
  | none =>
    rw [Ensure_path_update_ok (specDeps k1 k2) cli s name svcAct role Sesame C hget hown hch2 hup]
    rw [hch1]
    simp [Call.isUpdate, Call.isCreate]
  | some e =>
    rw [Ensure_path_update_error (specDeps k1 k2) cli s name svcAct role Sesame C e hget hown hch2
      hup]
    rw [hch1]
    simp [Call.isUpdate, Call.isCreate]

/-- Witness of C4: the store holds ns1/rb-a owned by the sample owner with
subject svc-old; the update sets subject svc-x and keeps resource version 7. -/
theorem EnsureRoleBinding_updates_witness :
    (EnsureRoleBinding sampleDeps (memClient none none) [sampleStored sampleOwnedLabels] "rb-a"
        "svc-x" "role-y" sampleOwner).calls
      = [Call.Get { Namespace := "ns1", Name := "rb-a" } (.ok (sampleStored sampleOwnedLabels)),
         Call.Update { sampleStored sampleOwnedLabels with
           Subjects := [{ Kind := "ServiceAccount", APIGroup := "", Name := "svc-x",
                          Namespace := "ns1" }] } none
           { sampleStored sampleOwnedLabels with
             Subjects := [{ Kind := "ServiceAccount", APIGroup := "", Name := "svc-x",
                            Namespace := "ns1" }] }] ∧
    ∃ rb : RoleBinding,
      (EnsureRoleBinding sampleDeps (memClient none none) [sampleStored sampleOwnedLabels] "rb-a"
          "svc-x" "role-y" sampleOwner).calls
        = [Call.Get { Namespace := "ns1", Name := "rb-a" } (.ok (sampleStored sampleOwnedLabels)),
           Call.Update rb ((memClient none none).Update [sampleStored sampleOwnedLabels] rb).1
             ((memClient none none).Update [sampleStored sampleOwnedLabels] rb).2.1] ∧
      rb.Subjects = [{ Kind := "ServiceAccount", APIGroup := "", Name := "svc-x",
                       Namespace := "ns1" }] ∧
      rb.ResourceVersion = "7" :=
  have h := EnsureRoleBinding_updates "owner-name" "owner-ns" (memClient none none)
    [sampleStored sampleOwnedLabels] "rb-a" "svc-x" "role-y" sampleOwner
    (sampleStored sampleOwnedLabels) rfl rfl (Or.inl (by decide))
  ⟨rfl, h.elim (fun rb hrb => ⟨rb, hrb.1, hrb.2.2.2.1, hrb.2.2.2.2.2.1.trans rfl⟩)⟩

/-- C5: with the helpers as the spec describes them, when the object read is
owned and already has the desired subject list and role reference,
`EnsureRoleBinding` returns nil and its only client call is the read: no
`Create`, no `Update`. -/
theorem EnsureRoleBinding_noop {σ : Type} (k1 k2 : String) (cli : Client σ) (s : σ)
    (name svcAct role : String) (Sesame : Sesame) (C : RoleBinding)
    (hget : (cli.Get s { Namespace := Sesame.Spec.Namespace.Name, Name := name }).1 = .ok C)
    (hown : labels.Exist C (objSesame.OwnerLabels k1 k2 Sesame) = true)
    (hs : C.Subjects = (desiredRoleBinding (specDeps k1 k2) name svcAct role Sesame).Subjects)
    (hr : C.RoleRef = (desiredRoleBinding (specDeps k1 k2) name svcAct role Sesame).RoleRef) :
    (EnsureRoleBinding (specDeps k1 k2) cli s name svcAct role Sesame).ret = none ∧
    (EnsureRoleBinding (specDeps k1 k2) cli s name svcAct role Sesame).calls
      = [Call.Get { Namespace := Sesame.Spec.Namespace.Name, Name := name } (.ok C)] ∧
    ((EnsureRoleBinding (specDeps k1 k2) cli s name svcAct role Sesame).calls.filter
      Call.isCreate).length = 0 ∧
    ((EnsureRoleBinding (specDeps k1 k2) cli s name svcAct role Sesame).calls.filter
      Call.isUpdate).length = 0 := by
  have hch : ((specDeps k1 k2).RoleBindingConfigChanged C
      (desiredRoleBinding (specDeps k1 k2) name svcAct role Sesame)).2 = false := by
    show (equality.RoleBindingConfigChanged C _).2 = false
    rw [RoleBindingConfigChanged_same C _ hs hr]
  rw [Ensure_path_unchanged (specDeps k1 k2) cli s name svcAct role Sesame C hget hown hch]
  simp [Call.isCreate, Call.isUpdate]

/-- Witness of C5: the store holds ns1/rb-a owned by the sample owner, with
the subject svc-old and the role role-y that are asked for. -/
theorem EnsureRoleBinding_noop_witness :
    (EnsureRoleBinding sampleDeps (memClient none none) [sampleStored sampleOwnedLabels] "rb-a"
        "svc-old" "role-y" sampleOwner).ret = none ∧
    (EnsureRoleBinding sampleDeps (memClient none none) [sampleStored sampleOwnedLabels] "rb-a"
        "svc-old" "role-y" sampleOwner).calls
      = [Call.Get { Namespace := "ns1", Name := "rb-a" }
          (.ok (sampleStored sampleOwnedLabels))] :=
  have h := EnsureRoleBinding_noop "owner-name" "owner-ns" (memClient none none)
    [sampleStored sampleOwnedLabels] "rb-a" "svc-old" "role-y" sampleOwner
    (sampleStored sampleOwnedLabels) rfl rfl rfl rfl
  ⟨h.1, h.2.1⟩

/-- The in-memory client behaves as the idempotence property asks of a store:
on every store state without object under the identity of `obj`, the read
reports NotFound, the create succeeds, and the next read returns `obj`. -/
theorem memClient_reads_back (s : MemStore) (obj : RoleBinding)
    (h : s.find { Namespace := obj.Namespace, Name := obj.Name } = none) :
    ((memClient none none).Get s { Namespace := obj.Namespace, Name := obj.Name }).1
      = .error (.client true "not found") ∧
    ((memClient none none).Create
      ((memClient none none).Get s { Namespace := obj.Namespace, Name := obj.Name }).2 obj).1
      = none ∧
    ((memClient none none).Get
      ((memClient none none).Create
        ((memClient none none).Get s { Namespace := obj.Namespace, Name := obj.Name }).2 obj).2.2
      { Namespace := obj.Namespace, Name := obj.Name }).1 = .ok obj := by
  have hf : MemStore.find (s ++ [obj]) { Namespace := obj.Namespace, Name := obj.Name }
      = some obj := by
    unfold MemStore.find at h ⊢
    rw [List.find?_append, h]
    simp
  refine ⟨?_, ?_, ?_⟩
  · simp [memClient, h]
  · simp [memClient, h]
  · simp [memClient, h, hf]

/-- C6: with the helpers as the spec describes them, on a store that has no
object under the identity, accepts the create and then reads the created object
back (same labels, subjects and role reference), two calls of
`EnsureRoleBinding` with the same arguments issue one mutating call in all, the
`Create` of the first; the second reads the object back, finds it owned (the
ownership predicate holds of it) and unchanged (the comparison reports no
change), issues no `Create` and no `Update`, and returns nil. -/
theorem EnsureRoleBinding_idempotent {σ : Type} (k1 k2 : String) (cli : Client σ) (s : σ)
    (name svcAct role : String) (Sesame : Sesame) (err : GoError) (c : RoleBinding)
    (hget : (cli.Get s { Namespace := Sesame.Spec.Namespace.Name, Name := name }).1 = .error err)
    (hnf : IsNotFound err = true)
    (hcr : (cli.Create (cli.Get s { Namespace := Sesame.Spec.Namespace.Name, Name := name }).2
        (desiredRoleBinding (specDeps k1 k2) name svcAct role Sesame)).1 = none)
    (hread : (cli.Get
        (cli.Create (cli.Get s { Namespace := Sesame.Spec.Namespace.Name, Name := name }).2
          (desiredRoleBinding (specDeps k1 k2) name svcAct role Sesame)).2.2
        { Namespace := Sesame.Spec.Namespace.Name, Name := name }).1 = .ok c)
    (hback : c.Labels = (desiredRoleBinding (specDeps k1 k2) name svcAct role Sesame).Labels ∧
      c.Subjects = (desiredRoleBinding (specDeps k1 k2) name svcAct role Sesame).Subjects ∧
      c.RoleRef = (desiredRoleBinding (specDeps k1 k2) name svcAct role Sesame).RoleRef) :
    (EnsureRoleBindingTwice (specDeps k1 k2) cli s name svcAct role Sesame).1.calls
      = [Call.Get { Namespace := Sesame.Spec.Namespace.Name, Name := name } (.error err),
         Call.Create (desiredRoleBinding (specDeps k1 k2) name svcAct role Sesame) none
           (cli.Create (cli.Get s { Namespace := Sesame.Spec.Namespace.Name, Name := name }).2
             (desiredRoleBinding (specDeps k1 k2) name svcAct role Sesame)).2.1] ∧
    (EnsureRoleBindingTwice (specDeps k1 k2) cli s name svcAct role Sesame).1.ret = none ∧
    (EnsureRoleBindingTwice (specDeps k1 k2) cli s name svcAct role Sesame).2.calls
      = [Call.Get { Namespace := Sesame.Spec.Namespace.Name, Name := name } (.ok c)] ∧
    labels.Exist c (objSesame.OwnerLabels k1 k2 Sesame) = true ∧
    equality.RoleBindingConfigChanged c
      (desiredRoleBinding (specDeps k1 k2) name svcAct role Sesame) = (c, false) ∧
    ((EnsureRoleBindingTwice (specDeps k1 k2) cli s name svcAct role Sesame).2.calls.filter
      Call.isCreate).length = 0 ∧
    ((EnsureRoleBindingTwice (specDeps k1 k2) cli s name svcAct role Sesame).2.calls.filter
      Call.isUpdate).length = 0 ∧
    (EnsureRoleBindingTwice (specDeps k1 k2) cli s name svcAct role Sesame).2.ret = none ∧
    ((EnsureRoleBindingTwice (specDeps k1 k2) cli s name svcAct role Sesame).1.calls ++
      (EnsureRoleBindingTwice (specDeps k1 k2) cli s name svcAct role Sesame).2.calls).filter
        Call.isMutating
      = [Call.Create (desiredRoleBinding (specDeps k1 k2) name svcAct role Sesame) none
          (cli.Create (cli.Get s { Namespace := Sesame.Spec.Namespace.Name, Name := name }).2
            (desiredRoleBinding (specDeps k1 k2) name svcAct role Sesame)).2.1] := by
  have h1 := Ensure_path_create_ok (specDeps k1 k2) cli s name svcAct role Sesame err hget hnf hcr
  have hown : labels.Exist c (objSesame.OwnerLabels k1 k2 Sesame) = true :=
    Exist_of_desired_labels k1 k2 name svcAct role Sesame c hback.1
  have hsame := RoleBindingConfigChanged_same c
    (desiredRoleBinding (specDeps k1 k2) name svcAct role Sesame) hback.2.1 hback.2.2
  have hch : ((specDeps k1 k2).RoleBindingConfigChanged c
      (desiredRoleBinding (specDeps k1 k2) name svcAct role Sesame)).2 = false := by
    show (equality.RoleBindingConfigChanged c _).2 = false
    rw [hsame]
  have h2 := Ensure_path_unchanged (specDeps k1 k2) cli
    (cli.Create (cli.Get s { Namespace := Sesame.Spec.Namespace.Name, Name := name }).2
      (desiredRoleBinding (specDeps k1 k2) name svcAct role Sesame)).2.2
    name svcAct role Sesame c hread hown hch
  have hs : (EnsureRoleBinding (specDeps k1 k2) cli s name svcAct role Sesame).store
      = (cli.Create (cli.Get s { Namespace := Sesame.Spec.Namespace.Name, Name := name }).2
          (desiredRoleBinding (specDeps k1 k2) name svcAct role Sesame)).2.2 := by
    rw [h1]
  have e1 : (EnsureRoleBindingTwice (specDeps k1 k2) cli s name svcAct role Sesame).1
      = EnsureRoleBinding (specDeps k1 k2) cli s name svcAct role Sesame := rfl
  have e2 : (EnsureRoleBindingTwice (specDeps k1 k2) cli s name svcAct role Sesame).2
      = EnsureRoleBinding (specDeps k1 k2) cli
          (EnsureRoleBinding (specDeps k1 k2) cli s name svcAct role Sesame).store
          name svcAct role Sesame := rfl
  rw [e1, e2, hs, h2, h1]
  refine ⟨rfl, rfl, rfl, hown, hsame, ?_, ?_, rfl, ?_⟩ <;>
    simp [Call.isMutating, Call.isCreate, Call.isUpdate]

/-- Witness of C6: the empty in-memory store, which reads back what was
created; the object read back is owned and unchanged. -/
theorem EnsureRoleBinding_idempotent_witness :
    (EnsureRoleBindingTwice sampleDeps (memClient none none) [] "rb-a" "svc-x" "role-y"
        sampleOwner).1.calls
      = [Call.Get { Namespace := "ns1", Name := "rb-a" } (.error (.client true "not found")),
         Call.Create (desiredRoleBinding sampleDeps "rb-a" "svc-x" "role-y" sampleOwner) none
           (desiredRoleBinding sampleDeps "rb-a" "svc-x" "role-y" sampleOwner)] ∧
    (EnsureRoleBindingTwice sampleDeps (memClient none none) [] "rb-a" "svc-x" "role-y"
        sampleOwner).2.calls
      = [Call.Get { Namespace := "ns1", Name := "rb-a" }
          (.ok (desiredRoleBinding sampleDeps "rb-a" "svc-x" "role-y" sampleOwner))] ∧
    labels.Exist (desiredRoleBinding sampleDeps "rb-a" "svc-x" "role-y" sampleOwner)
      (objSesame.OwnerLabels "owner-name" "owner-ns" sampleOwner) = true ∧
    equality.RoleBindingConfigChanged
      (desiredRoleBinding sampleDeps "rb-a" "svc-x" "role-y" sampleOwner)
      (desiredRoleBinding sampleDeps "rb-a" "svc-x" "role-y" sampleOwner)
      = (desiredRoleBinding sampleDeps "rb-a" "svc-x" "role-y" sampleOwner, false) ∧
    (EnsureRoleBindingTwice sampleDeps (memClient none none) [] "rb-a" "svc-x" "role-y"
        sampleOwner).2.ret = none :=
  have h := EnsureRoleBinding_idempotent "owner-name" "owner-ns" (memClient none none) []
    "rb-a" "svc-x" "role-y" sampleOwner (.client true "not found")
    (desiredRoleBinding sampleDeps "rb-a" "svc-x" "role-y" sampleOwner)
    rfl rfl rfl rfl ⟨rfl, rfl, rfl⟩
  ⟨h.1, h.2.2.1, h.2.2.2.1, h.2.2.2.2.1, h.2.2.2.2.2.2.2.1⟩

/-- C7: when the `Create` or the `Update` that `EnsureRoleBinding` issues fails
with `e`, `EnsureRoleBinding` returns a non-nil error that wraps `e` and whose
message names the operation and the namespace/name of the role binding: for a
failed create those the created object carries when the call returns, for a
failed update those of the desired object, followed by those the updated object
carries when the call returns. It does not return nil. -/
theorem EnsureRoleBinding_mutation_error {σ : Type} (D : Deps) (cli : Client σ) (s : σ)
    (name svcAct role : String) (Sesame : Sesame) (obj written : RoleBinding) (e : GoError)
    (hfail :
      Call.Create obj (some e) written
        ∈ (EnsureRoleBinding D cli s name svcAct role Sesame).calls ∨
      Call.Update obj (some e) written
        ∈ (EnsureRoleBinding D cli s name svcAct role Sesame).calls) :
    (EnsureRoleBinding D cli s name svcAct role Sesame).ret ≠ none ∧
    ∃ err op ns nm, (EnsureRoleBinding D cli s name svcAct role Sesame).ret = some err ∧
      GoError.Is err e = true ∧
      ((op = "create" ∧ ns = written.Namespace ∧ nm = written.Name ∧
          obj = desiredRoleBinding D name svcAct role Sesame ∧
          Call.Create obj (some e) written
            ∈ (EnsureRoleBinding D cli s name svcAct role Sesame).calls) ∨
        (op = "update" ∧ ns = (desiredRoleBinding D name svcAct role Sesame).Namespace ∧
          nm = (desiredRoleBinding D name svcAct role Sesame).Name ∧
          Call.Update obj (some e) written
            ∈ (EnsureRoleBinding D cli s name svcAct role Sesame).calls)) ∧
      err = Errorf op ns nm (Errorf op written.Namespace written.Name e) ∧
      err.Error = "failed to " ++ op ++ " role binding " ++ ns ++ "/" ++ nm ++ ": "
        ++ ("failed to " ++ op ++ " role binding " ++ written.Namespace ++ "/"
        ++ written.Name ++ ": " ++ e.Error) := by
  cases hget : (cli.Get s { Namespace := Sesame.Spec.Namespace.Name, Name := name }).1 with
  | error err =>
    cases hnf : IsNotFound err with
    | false =>
      rw [Ensure_path_read_error D cli s name svcAct role Sesame err hget hnf] at hfail
      simp at hfail
    | true =>
      cases hcr : (cli.Create
          (cli.Get s { Namespace := Sesame.Spec.Namespace.Name, Name := name }).2
          (desiredRoleBinding D name svcAct role Sesame)).1 with
      | none =>
        rw [Ensure_path_create_ok D cli s name svcAct role Sesame err hget hnf hcr] at hfail
        simp at hfail
      | some e2 =>
        rw [Ensure_path_create_error D cli s name svcAct role Sesame err e2 hget hnf hcr] at hfail
        rw [Ensure_path_create_error D cli s name svcAct role Sesame err e2 hget hnf hcr]
        simp at hfail
        obtain ⟨hobj, he, hw⟩ := hfail
        subst hobj
        subst he
        subst hw
        refine ⟨by simp, _, "create", _, _, rfl, Errorf_Errorf_Is _ _ _ _ _ _,
          Or.inl ⟨rfl, rfl, rfl, rfl, by simp⟩, rfl, rfl⟩
  | ok current =>
    cases hown : D.Exist current (D.OwnerLabels Sesame) with
    | false =>
      rw [Ensure_path_not_owned D cli s name svcAct role Sesame current hget hown] at hfail
      simp at hfail
    | true =>
      cases hch : (D.RoleBindingConfigChanged current
          (desiredRoleBinding D name svcAct role Sesame)).2 with
      | false =>
        rw [Ensure_path_unchanged D cli s name svcAct role Sesame current hget hown hch] at hfail
        simp at hfail
      | true =>
        cases hup : (cli.Update
            (cli.Get s { Namespace := Sesame.Spec.Namespace.Name, Name := name }).2
            (D.RoleBindingConfigChanged current
              (desiredRoleBinding D name svcAct role Sesame)).1).1 with
        | none =>
          rw [Ensure_path_update_ok D cli s name svcAct role Sesame current hget hown hch hup]
            at hfail
          simp at hfail
        | some e2 =>
          rw [Ensure_path_update_error D cli s name svcAct role Sesame current e2 hget hown hch
            hup] at hfail
          rw [Ensure_path_update_error D cli s name svcAct role Sesame current e2 hget hown hch
            hup]
          simp at hfail
          obtain ⟨hobj, he, hw⟩ := hfail
          subst hobj
          subst he
          subst hw
          refine ⟨by simp, _, "update", _, _, rfl, Errorf_Errorf_Is _ _ _ _ _ _,
            Or.inr ⟨rfl, rfl, rfl, by simp⟩, rfl, rfl⟩

/-- Witness of C7: a client bound to namespace ns1 whose writes are forbidden,
and an owner whose spec names no namespace: the create of the desired object
fails after the client set the namespace of the object, and the error names
ns1/rb-a. -/
theorem EnsureRoleBinding_mutation_error_witness :
    (EnsureRoleBinding sampleDeps (namespacedClient "ns1" (memClient none (some forbidden))) []
        "rb-a" "svc-x" "role-y" sampleOwnerNoNamespace).ret
      = some (Errorf "create" "ns1" "rb-a" (Errorf "create" "ns1" "rb-a" forbidden)) ∧
    (EnsureRoleBinding sampleDeps (namespacedClient "ns1" (memClient none (some forbidden))) []
        "rb-a" "svc-x" "role-y" sampleOwnerNoNamespace).ret ≠ none :=
  have h := EnsureRoleBinding_mutation_error sampleDeps
    (namespacedClient "ns1" (memClient none (some forbidden))) []
    "rb-a" "svc-x" "role-y" sampleOwnerNoNamespace
    (desiredRoleBinding sampleDeps "rb-a" "svc-x" "role-y" sampleOwnerNoNamespace)
    { desiredRoleBinding sampleDeps "rb-a" "svc-x" "role-y" sampleOwnerNoNamespace with
      Namespace := "ns1" }
    forbidden
    (Or.inl (List.Mem.tail _ (List.Mem.head _)))
  ⟨rfl, h.1⟩

/-- C10, as amended: the key `EnsureRoleBinding` reads is the namespace and
name of the object `desiredRoleBinding` builds: the first client call is the
`Get` under that identity and an object handed to `Create` is the desired
object, which carries it. The error of a failed read or update is formatted
with that identity; the error of a failed create is formatted with the
namespace and name the object carries when the `Create` call returns, which
are the identity read whenever the client left them as they were. -/
theorem EnsureRoleBinding_identity {σ : Type} (D : Deps) (cli : Client σ) (s : σ)
    (name svcAct role : String) (Sesame : Sesame) :
    ({ Namespace := Sesame.Spec.Namespace.Name, Name := name } : NamespacedName)
      = { Namespace := (desiredRoleBinding D name svcAct role Sesame).Namespace,
          Name := (desiredRoleBinding D name svcAct role Sesame).Name } ∧
    (∃ res, (EnsureRoleBinding D cli s name svcAct role Sesame).calls.head?
      = some (Call.Get
          { Namespace := (desiredRoleBinding D name svcAct role Sesame).Namespace,
            Name := (desiredRoleBinding D name svcAct role Sesame).Name } res)) ∧
    (∀ obj r w, Call.Create obj r w ∈ (EnsureRoleBinding D cli s name svcAct role Sesame).calls →
      obj = desiredRoleBinding D name svcAct role Sesame ∧
      obj.Namespace = Sesame.Spec.Namespace.Name ∧ obj.Name = name) ∧
    (∀ err, (EnsureRoleBinding D cli s name svcAct role Sesame).ret = some err →
      (∃ inner, err = Errorf "get" Sesame.Spec.Namespace.Name name inner ∧
        err.Error = "failed to get role binding " ++ Sesame.Spec.Namespace.Name ++ "/"
          ++ name ++ ": " ++ inner.Error) ∨
      (∃ inner, err = Errorf "update" Sesame.Spec.Namespace.Name name inner ∧
        err.Error = "failed to update role binding " ++ Sesame.Spec.Namespace.Name ++ "/"
          ++ name ++ ": " ++ inner.Error) ∨
      (∃ e w, Call.Create (desiredRoleBinding D name svcAct role Sesame) (some e) w
          ∈ (EnsureRoleBinding D cli s name svcAct role Sesame).calls ∧
        err = Errorf "create" w.Namespace w.Name (Errorf "create" w.Namespace w.Name e) ∧
        (w.Namespace = Sesame.Spec.Namespace.Name → w.Name = name →
          err = Errorf "create" Sesame.Spec.Namespace.Name name
            (Errorf "create" Sesame.Spec.Namespace.Name name e)))) := by
  refine ⟨rfl, ?_⟩
  rw [desiredRoleBinding_Namespace, desiredRoleBinding_Name]
  cases hget : (cli.Get s { Namespace := Sesame.Spec.Namespace.Name, Name := name }).1 with
  | error err =>
    cases hnf : IsNotFound err with
    | false =>
      rw [Ensure_path_read_error D cli s name svcAct role Sesame err hget hnf]
      refine ⟨⟨_, rfl⟩, ?_, ?_⟩
      · intro obj r w h; simp at h
      · intro e he
        simp at he
        exact Or.inl ⟨err, he.symm, by rw [← he]; rfl⟩
    | true =>
      cases hcr : (cli.Create
          (cli.Get s { Namespace := Sesame.Spec.Namespace.Name, Name := name }).2
          (desiredRoleBinding D name svcAct role Sesame)).1 with
      | none =>
        rw [Ensure_path_create_ok D cli s name svcAct role Sesame err hget hnf hcr]
        refine ⟨⟨_, rfl⟩, ?_, ?_⟩
        · intro obj r w h
          simp at h
          rw [h.1]
          exact ⟨rfl, rfl, rfl⟩
        · intro e he; simp at he
      | some e =>
        rw [Ensure_path_create_error D cli s name svcAct role Sesame err e hget hnf hcr]
        refine ⟨⟨_, rfl⟩, ?_, ?_⟩
        · intro obj r w h
          simp at h
          rw [h.1]
          exact ⟨rfl, rfl, rfl⟩
        · intro e2 he
          simp at he
          refine Or.inr (Or.inr ⟨e, _, by simp, he.symm, ?_⟩)
          intro h1 h2
          rw [← he, h1, h2]
  | ok current =>
    cases hown : D.Exist current (D.OwnerLabels Sesame) with
    | false =>
      rw [Ensure_path_not_owned D cli s name svcAct role Sesame current hget hown]
      refine ⟨⟨_, rfl⟩, ?_, ?_⟩
      · intro obj r w h; simp at h
      · intro e he; simp at he
    | true =>
      cases hch : (D.RoleBindingConfigChanged current
          (desiredRoleBinding D name svcAct role Sesame)).2 with
      | false =>
        rw [Ensure_path_unchanged D cli s name svcAct role Sesame current hget hown hch]
        refine ⟨⟨_, rfl⟩, ?_, ?_⟩
        · intro obj r w h; simp at h
        · intro e he; simp at he
      | true =>
        cases hup : (cli.Update
            (cli.Get s { Namespace := Sesame.Spec.Namespace.Name, Name := name }).2
            (D.RoleBindingConfigChanged current
              (desiredRoleBinding D name svcAct role Sesame)).1).1 with
        | none =>
          rw [Ensure_path_update_ok D cli s name svcAct role Sesame current hget hown hch hup]
          refine ⟨⟨_, rfl⟩, ?_, ?_⟩
          · intro obj r w h; simp at h
          · intro e he; simp at he
        | some e =>
          rw [Ensure_path_update_error D cli s name svcAct role Sesame current e hget hown hch
            hup]
          refine ⟨⟨_, rfl⟩, ?_, ?_⟩
          · intro obj r w h; simp at h
          · intro e2 he
            simp at he
            exact Or.inr (Or.inl ⟨_, he.symm, by rw [← he]; rfl⟩)

/-- Counterexample to C10 as stated: with a client bound to namespace ns1 whose
writes are forbidden and an owner whose spec names no namespace, the identity
read is /rb-a, while the error returned prints ns1/rb-a, the namespace the
client wrote into the object before the create failed; it is none of the
errors formatted with the identity read. -/
theorem EnsureRoleBinding_identity_counterexample :
    (EnsureRoleBinding sampleDeps (namespacedClient "ns1" (memClient none (some forbidden))) []
        "rb-a" "svc-x" "role-y" sampleOwnerNoNamespace).calls.head?
      = some (Call.Get { Namespace := "", Name := "rb-a" }
          (.error (.client true "not found"))) ∧
    (EnsureRoleBinding sampleDeps (namespacedClient "ns1" (memClient none (some forbidden))) []
        "rb-a" "svc-x" "role-y" sampleOwnerNoNamespace).ret.map GoError.Error
      = some "failed to create role binding ns1/rb-a: failed to create role binding ns1/rb-a: forbidden" ∧
    ¬ ∃ op inner, (op = "create" ∨ op = "get" ∨ op = "update") ∧
      (EnsureRoleBinding sampleDeps (namespacedClient "ns1" (memClient none (some forbidden))) []
        "rb-a" "svc-x" "role-y" sampleOwnerNoNamespace).ret
        = some (Errorf op "" "rb-a" inner) := by
  have hr : (EnsureRoleBinding sampleDeps
      (namespacedClient "ns1" (memClient none (some forbidden))) []
      "rb-a" "svc-x" "role-y" sampleOwnerNoNamespace).ret
      = some (Errorf "create" "ns1" "rb-a" (Errorf "create" "ns1" "rb-a" forbidden)) := rfl
  refine ⟨rfl, ?_, ?_⟩
  · rw [hr]; decide
  · rw [hr]
    rintro ⟨op, inner, hop, h⟩
    have h2 := Option.some.inj h
    unfold Errorf at h2
    injection h2 with hmsg hinner
    subst hinner
    rcases hop with hop | hop | hop <;> subst hop <;> revert hmsg <;> decide

end rolebinding
